import Mathlib

/-!
Shallow embedding of `skyhook.py`: a GitHub-webhook-to-Slack relay.

The inbound endpoint `hook` validates the request origin against a list of
GitHub network ranges, dispatches on the `X-GitHub-Event` header, and for
authorized `watch`/`fork` events enqueues a job `(event_type, payload)` on a
FIFO queue consumed by a single background `Worker`.  The worker's `handle`
looks the repository up in `REPOS`, formats a message with a Python
format-string template, and posts it to Slack; the worker loop wraps `handle`
in a catch-all that logs the exception and continues with the next job.

Modelling conventions:
* JSON payload fields are `Option`-valued; a Python `KeyError` on a missing
  dict key becomes `Except.error`.
* The Slack client (`Slacker.chat.post_message`) is an external oracle
  `notify : String → String → Bool` (`false` = the call raises).
* Python `str.format` is embedded as `pyFormat`: placeholders `{key}` are
  looked up in a field map keyed by the flattened access path (so the template
  text `\x7buser[name]\x7d` is the key "user[name]"), `\x7b\x7b`/`\x7d\x7d`
  escape to literal braces, an unmatched brace is a `ValueError` and an
  unknown key a `KeyError`, as in CPython.
* IPv4 addresses are naturals below `2^32`; `netaddr.IPNetwork` membership
  (`addr in network`) is `first ≤ addr ≤ last` for the CIDR block.
-/

set_option autoImplicit false

namespace Skyhook

/-! ## Data model -/

/-- The JSON fields of a webhook payload that `skyhook.py` reads.  Each is
optional: accessing an absent field raises `KeyError` in Python. -/
structure Payload where
  repository_full_name : Option String
  repository_html_url : Option String
  repository_stargazers_count : Option Nat
  repository_forks : Option Nat
  sender_login : Option String
  sender_html_url : Option String
deriving DecidableEq, Repr

/-- One entry of `app.config['REPOS']`: a Python dict with a `channel` key and
optional `STAR_FORMAT` / `FORK_FORMAT` template overrides (`repo.get(...)`). -/
structure RepoConfig where
  channel : Option String
  STAR_FORMAT : Option String
  FORK_FORMAT : Option String
deriving DecidableEq, Repr

/-- The parts of `app.config` the hook and worker read. `REPOS` is a dict,
modelled as an association list (first match wins). -/
structure AppConfig where
  STAR_FORMAT : String
  FORK_FORMAT : String
  REPOS : List (String × RepoConfig)
deriving DecidableEq, Repr

/-- The defaults installed by `app.config.update(...)` at module load. -/
def defaultConfig : AppConfig where
  STAR_FORMAT := "<\x7buser[url]\x7d|\x7buser[name]\x7d> starred <\x7brepo[url]\x7d|\x7brepo[name]\x7d> ★ \x7bstars\x7d"
  FORK_FORMAT := "<\x7buser[url]\x7d|\x7buser[name]\x7d> forked <\x7brepo[url]\x7d|\x7brepo[name]\x7d> :goldfork: \x7bforks\x7d"
  REPOS := []

/-- Python dict lookup `d[k]` as an association-list lookup. -/
def dictGet {α : Type} (d : List (String × α)) (k : String) : Option α :=
  match d with
  | [] => none
  | p :: rest => if p.1 = k then some p.2 else dictGet rest k

/-- Accessing a possibly-missing value: `none` raises `KeyError`. -/
def keyErr {α : Type} (k : String) : Option α → Except String α
  | none => .error ("KeyError: " ++ k)
  | some v => .ok v

/-! ## Python `str.format` -/

def lbrace : Char := Char.ofNat 123

def rbrace : Char := Char.ofNat 125

/-- Flush an accumulated literal run (held in reverse) as a piece list. -/
def flushLit (lit : List Char) : List String :=
  if lit.isEmpty then [] else [String.mk lit.reverse]

/-- Renderer state: scanning a literal run (held reversed in `run`), just
after an opening or closing brace, or inside a placeholder whose key so far
is `k` (reversed). -/
inductive ScanState where
  | lit (run : List Char)
  | openBr (run : List Char)
  | closeBr (run : List Char)
  | key (run : List Char) (k : List Char)
deriving DecidableEq, Repr

/-- Scan the template, producing the list of output pieces (alternating
literal runs and substituted field values). -/
def renderScan (fields : String → Option String) :
    ScanState → List Char → Except String (List String)
  | .lit run, [] => .ok (flushLit run)
  | .openBr _, [] => .error "ValueError: Single brace encountered"
  | .closeBr _, [] => .error "ValueError: Single brace encountered"
  | .key _ _, [] => .error "ValueError: Single brace encountered"
  | .lit run, c :: rest =>
    if c = lbrace then renderScan fields (.openBr run) rest
    else if c = rbrace then renderScan fields (.closeBr run) rest
    else renderScan fields (.lit (c :: run)) rest
  | .openBr run, c :: rest =>
    if c = lbrace then renderScan fields (.lit (lbrace :: run)) rest
    else if c = rbrace then
      match fields "" with
      | some v => (renderScan fields (.lit []) rest).map (fun ps => flushLit run ++ v :: ps)
      | none => .error "KeyError: "
    else renderScan fields (.key run [c]) rest
  | .closeBr run, c :: rest =>
    if c = rbrace then renderScan fields (.lit (rbrace :: run)) rest
    else .error "ValueError: Single brace encountered"
  | .key run k, c :: rest =>
    if c = rbrace then
      match fields (String.mk k.reverse) with
      | some v => (renderScan fields (.lit []) rest).map (fun ps => flushLit run ++ v :: ps)
      | none => .error ("KeyError: " ++ String.mk k.reverse)
    else renderScan fields (.key run (c :: k)) rest

/-- Python `tmpl.format(**fields)`. -/
def pyFormat (tmpl : String) (fields : String → Option String) : Except String String :=
  (renderScan fields (.lit []) tmpl.toList).map String.join

/-! ## Notifier and worker -/

/-- One invocation of `app.slack.chat.post_message(channel, message)`. -/
structure SlackCall where
  channel : String
  message : String
deriving DecidableEq, Repr

/-- A queued job: `Worker.send(event_type, payload)` puts this tuple on the
queue, and `Worker.handle(event_type, payload)` consumes it. -/
structure Job where
  event_type : String
  payload : Payload
deriving DecidableEq, Repr

/-- The keyword arguments `slack_notify_star` passes to `str.format`, keyed by
flattened access path (`user[name]` is `kwargs['user']['name']`). -/
def starFields (login sender_url name repo_url : String) (stars : Nat) :
    String → Option String :=
  dictGet [("user[name]", login), ("user[url]", sender_url),
           ("repo[name]", name), ("repo[url]", repo_url),
           ("stars", toString stars)]

/-- The keyword arguments `slack_notify_fork` passes to `str.format`. -/
def forkFields (login sender_url name repo_url : String) (forks : Nat) :
    String → Option String :=
  dictGet [("user[name]", login), ("user[url]", sender_url),
           ("repo[name]", name), ("repo[url]", repo_url),
           ("forks", toString forks)]

/-- `slack_notify_star` up to the Slack call: format the message, yielding the
`post_message` invocation to make. -/
def slack_notify_star (channel star_format : String) (fields : String → Option String) :
    Except String SlackCall :=
  (pyFormat star_format fields).map (fun msg => { channel := channel, message := msg })

/-- `slack_notify_fork` up to the Slack call. -/
def slack_notify_fork (channel fork_format : String) (fields : String → Option String) :
    Except String SlackCall :=
  (pyFormat fork_format fields).map (fun msg => { channel := channel, message := msg })

/-- `Worker.handle(event_type, payload)`: on `watch`/`fork`, look the repo up
in `REPOS`, pick the per-repo or default template, format, and produce the
Slack call; on any other event type, fall through doing nothing.  `Except` is
the exception the call would raise, caught by the worker loop. -/
def handle (cfg : AppConfig) (job : Job) : Except String (Option SlackCall) :=
  if job.event_type = "watch" then do
    let name ← keyErr "full_name" job.payload.repository_full_name
    let repo ← keyErr name (dictGet cfg.REPOS name)
    let star_format := repo.STAR_FORMAT.getD cfg.STAR_FORMAT
    let channel ← keyErr "channel" repo.channel
    let login ← keyErr "login" job.payload.sender_login
    let sender_url ← keyErr "html_url" job.payload.sender_html_url
    let repo_url ← keyErr "html_url" job.payload.repository_html_url
    let stars ← keyErr "stargazers_count" job.payload.repository_stargazers_count
    let call ← slack_notify_star channel star_format (starFields login sender_url name repo_url stars)
    pure (some call)
  else if job.event_type = "fork" then do
    let name ← keyErr "full_name" job.payload.repository_full_name
    let repo ← keyErr name (dictGet cfg.REPOS name)
    let fork_format := repo.FORK_FORMAT.getD cfg.FORK_FORMAT
    let channel ← keyErr "channel" repo.channel
    let login ← keyErr "login" job.payload.sender_login
    let sender_url ← keyErr "html_url" job.payload.sender_html_url
    let repo_url ← keyErr "html_url" job.payload.repository_html_url
    let forks ← keyErr "forks" job.payload.repository_forks
    let call ← slack_notify_fork channel fork_format (forkFields login sender_url name repo_url forks)
    pure (some call)
  else
    pure none

/-- The observable outcome of one iteration of `Worker.run`: the Slack call
attempted (if `handle` reached one) and the error logged by the catch-all
(if the iteration raised). -/
structure StepResult where
  call : Option SlackCall
  logged : Option String
deriving DecidableEq, Repr

/-- One iteration of the `while True` loop in `Worker.run`: run `handle` on
the job; the bare `except:` turns any exception into a log line.  `notify`
is the Slack client: `false` means `post_message` raises. -/
def workerStep (cfg : AppConfig) (notify : String → String → Bool) (job : Job) :
    StepResult :=
  match handle cfg job with
  | .error e => { call := none, logged := some e }
  | .ok none => { call := none, logged := none }
  | .ok (some c) =>
    if notify c.channel c.message then { call := some c, logged := none }
    else { call := some c, logged := some "SlackError" }

/-- `Worker.run` restricted to a finite prefix of the job stream: the loop
body runs once per dequeued job, unconditionally continuing to the next. -/
def runWorker (cfg : AppConfig) (notify : String → String → Bool) :
    List Job → List StepResult
  | [] => []
  | j :: rest => workerStep cfg notify j :: runWorker cfg notify rest

/-- The sequence of Slack invocations the worker attempts, in order. -/
def notifierTrace (cfg : AppConfig) (notify : String → String → Bool)
    (jobs : List Job) : List SlackCall :=
  (runWorker cfg notify jobs).filterMap (fun r => r.call)

/-! ## The queue

`queue.Queue` is FIFO: `put` appends at the tail, `get` removes from the
head.  Modelled as a list whose head is the next element to be dequeued. -/

abbrev Queue (α : Type) : Type := List α

def Queue.empty {α : Type} : Queue α := []

/-- `queue.Queue.put`: append at the tail. -/
def Queue.put {α : Type} (q : Queue α) (x : α) : Queue α := q ++ [x]

/-- `queue.Queue.get`: remove from the head (`none` = would block). -/
def Queue.dequeue {α : Type} : Queue α → Option (α × Queue α)
  | [] => none
  | x :: rest => some (x, rest)

/-- Repeatedly `get` until the queue is empty: the order in which a single
consumer observes the elements. -/
def Queue.drain {α : Type} : Queue α → List α
  | [] => []
  | x :: rest => x :: Queue.drain rest

/-- `put` each element of `xs` in order. -/
def Queue.putAll {α : Type} (q : Queue α) (xs : List α) : Queue α :=
  xs.foldl Queue.put q

/-! ## Origin check -/

/-- `netaddr.IPNetwork`: a CIDR block, as the given 32-bit address and the
prefix length. -/
structure IPNetwork where
  addr : Nat
  masklen : Nat
deriving DecidableEq, Repr

/-- Number of addresses in the block. -/
def IPNetwork.size (n : IPNetwork) : Nat := 2 ^ (32 - n.masklen)

/-- The network (first) address of the block. -/
def IPNetwork.first (n : IPNetwork) : Nat := n.addr / n.size * n.size

/-- The broadcast (last) address of the block. -/
def IPNetwork.last (n : IPNetwork) : Nat := IPNetwork.first n + (IPNetwork.size n - 1)

/-- `addr in network` for `netaddr`: `first ≤ addr ≤ last`. -/
def IPNetwork.hasAddr (n : IPNetwork) (a : Nat) : Bool :=
  decide (IPNetwork.first n ≤ a) && decide (a ≤ IPNetwork.last n)

/-- The `for network in app.github_networks: if ... break / else: return 403`
loop: the address is accepted iff some configured network holds it. -/
def isAuthorized (networks : List IPNetwork) (a : Nat) : Bool :=
  networks.any (fun n => IPNetwork.hasAddr n a)

/-! ## The endpoint -/

/-- An inbound POST: remote address, the `X-GitHub-Event` header (`none` if
absent), and the JSON body. -/
structure Request where
  remote_addr : Nat
  event_type : Option String
  payload : Payload
deriving DecidableEq, Repr

/-- A JSON response: `flask.jsonify(...)` body as key/value pairs, plus the
HTTP status code. -/
structure Response where
  body : List (String × String)
  code : Nat
deriving DecidableEq, Repr

/-- Either a response returned by the handler, or an exception escaping it
(which Flask turns into a 500). -/
inductive HookResponse where
  | normal (r : Response)
  | uncaught (e : String)
deriving DecidableEq, Repr

/-- What one call of the endpoint does: the response, and the job passed to
`Worker.send`, if any. -/
structure HookOutcome where
  response : HookResponse
  enqueued : Option Job
deriving DecidableEq, Repr

/-- Python truthiness of the header value: `not event_type` is true when the
header is absent (`None`) or present but empty. -/
def isFalsyHeader : Option String → Bool
  | none => true
  | some s => s = ""

/-- The `hook` view function, in source order: origin check first, then
dispatch on the event type; `watch`/`fork` check the repository against
`REPOS` before enqueueing `(event_type, payload)`. -/
def hook (cfg : AppConfig) (networks : List IPNetwork) (req : Request) : HookOutcome :=
  if ¬ isAuthorized networks req.remote_addr then
    { response := .normal { body := [("status", "you != GitHub")], code := 403 }, enqueued := none }
  else if isFalsyHeader req.event_type then
    { response := .normal { body := [("status", "not a hook")], code := 403 }, enqueued := none }
  else if req.event_type = some "ping" then
    { response := .normal { body := [("status", "pong")], code := 200 }, enqueued := none }
  else if req.event_type = some "watch" then
    match req.payload.repository_full_name with
    | none => { response := .uncaught "KeyError: full_name", enqueued := none }
    | some repo =>
      if (dictGet cfg.REPOS repo).isNone then
        { response := .normal { body := [("status", "repo not allowed"), ("repo", repo)], code := 403 },
          enqueued := none }
      else
        { response := .normal { body := [("status", "handled")], code := 202 },
          enqueued := some { event_type := "watch", payload := req.payload } }
  else if req.event_type = some "fork" then
    match req.payload.repository_full_name with
    | none => { response := .uncaught "KeyError: full_name", enqueued := none }
    | some repo =>
      if (dictGet cfg.REPOS repo).isNone then
        { response := .normal { body := [("status", "repo not allowed"), ("repo", repo)], code := 403 },
          enqueued := none }
      else
        { response := .normal { body := [("status", "handled")], code := 202 },
          enqueued := some { event_type := "fork", payload := req.payload } }
  else
    { response := .normal { body := [("status", "unhandled event"),
                                     ("event", req.event_type.getD "")], code := 501 },
      enqueued := none }

/-- The jobs placed on the worker's queue over a sequence of requests served
against a fixed configuration and allowlist, in order. -/
def enqueuedJobs (cfg : AppConfig) (networks : List IPNetwork) :
    List Request → List Job
  | [] => []
  | r :: rs =>
    match (hook cfg networks r).enqueued with
    | some j => j :: enqueuedJobs cfg networks rs
    | none => enqueuedJobs cfg networks rs

/-! ## Spec-side view of a job

The spec's `NotificationJob` has `kind ∈ \x7bstar, fork\x7d` and a
`metric_value`; in the code the job is the raw `(event_type, payload)` pair,
with `watch` playing the role of `star` and the metric read from the payload
by the worker.  These projections state that correspondence. -/

inductive JobKind where
  | star
  | fork
deriving DecidableEq, Repr

/-- The spec-level kind of a queued job. -/
def jobKind (j : Job) : Option JobKind :=
  if j.event_type = "watch" then some .star
  else if j.event_type = "fork" then some .fork
  else none

/-- The spec-level metric value of a queued job: the payload field the worker
will substitute for the count placeholder. -/
def jobMetricValue (j : Job) : Option Nat :=
  if j.event_type = "watch" then j.payload.repository_stargazers_count
  else if j.event_type = "fork" then j.payload.repository_forks
  else none

/-! ## Concrete fixtures

A registered repository with no template overrides, a fully-populated
payload, one with a missing `sender.login`, and the `10.0.0.0/8` allowlist. -/

def exRepoCfg : RepoConfig :=
  { channel := some "#releases", STAR_FORMAT := none, FORK_FORMAT := none }

def exCfg : AppConfig := { defaultConfig with REPOS := [("acme/widgets", exRepoCfg)] }

def exPayload : Payload :=
  { repository_full_name := some "acme/widgets",
    repository_html_url := some "https://github.com/acme/widgets",
    repository_stargazers_count := some 7,
    repository_forks := some 42,
    sender_login := some "alice",
    sender_html_url := some "https://github.com/alice" }

def badPayload : Payload := { exPayload with sender_login := none }

def exNetworks : List IPNetwork := [{ addr := 167772160, masklen := 8 }]

def exWatchReq : Request :=
  { remote_addr := 167772161, event_type := some "watch", payload := exPayload }

def strangerReq : Request :=
  { remote_addr := 0, event_type := none, payload := exPayload }

/-! ## Helper lemmas -/

theorem runWorker_append (cfg : AppConfig) (notify : String → String → Bool)
    (l1 l2 : List Job) :
    runWorker cfg notify (l1 ++ l2) = runWorker cfg notify l1 ++ runWorker cfg notify l2 := by
  induction l1 with
  | nil => rfl
  | cons j rest ih => simp [runWorker, ih]

theorem notifierTrace_append (cfg : AppConfig) (notify : String → String → Bool)
    (l1 l2 : List Job) :
    notifierTrace cfg notify (l1 ++ l2)
      = notifierTrace cfg notify l1 ++ notifierTrace cfg notify l2 := by
  simp [notifierTrace, runWorker_append]

theorem notifierTrace_cons (cfg : AppConfig) (notify : String → String → Bool)
    (j : Job) (l : List Job) :
    notifierTrace cfg notify (j :: l)
      = (workerStep cfg notify j).call.toList ++ notifierTrace cfg notify l := by
  simp [notifierTrace, runWorker, List.filterMap_cons]
  cases (workerStep cfg notify j).call <;> simp

theorem queue_fifo (js : List Job) :
    Queue.drain (Queue.putAll Queue.empty js) = js := by
  have hput : ∀ (q : Queue Job), Queue.putAll q js = q ++ js := by
    induction js with
    | nil => intro q; simp [Queue.putAll]
    | cons x xs ih => intro q; simp [Queue.putAll, Queue.put] at ih ⊢; simpa using ih (q ++ [x])
  have hdrain : ∀ (q : Queue Job), Queue.drain q = q := by
    intro q; induction q with
    | nil => rfl
    | cons x xs ih => simp [Queue.drain, ih]
  simp [hput, hdrain, Queue.empty]

theorem hook_enqueued_registered (cfg : AppConfig) (networks : List IPNetwork)
    (req : Request) (j : Job)
    (h : (hook cfg networks req).enqueued = some j) :
    ∃ name rc, j.payload.repository_full_name = some name
      ∧ dictGet cfg.REPOS name = some rc := by
  unfold hook at h
  split_ifs at h
  all_goals first
  | (simp at h; done)
  | (cases hn : req.payload.repository_full_name with
     | none => rw [hn] at h; simp at h
     | some repo =>
       rw [hn] at h
       simp only [Option.isNone_iff_eq_none] at h
       split_ifs at h with hd
       all_goals simp at h
       subst h
       rcases Option.ne_none_iff_exists'.mp hd with ⟨rc, ho⟩
       exact ⟨repo, rc, hn, ho⟩)

/-! ## The claims -/

/-- C1: if handling a job raises any error during formatting or sending
(missing payload field, malformed template, notifier failure), the worker
catches and logs it and still processes every other enqueued job: the result
of the run over any job sequence decomposes per job, with the failing job
contributing only a log entry, never terminating the loop. -/
theorem c1_worker_fault_isolation (cfg : AppConfig) (notify : String → String → Bool)
    (pre post : List Job) (j : Job) :
    runWorker cfg notify (pre ++ j :: post)
      = runWorker cfg notify pre ++ workerStep cfg notify j :: runWorker cfg notify post
    ∧ (∀ e : String, handle cfg j = .error e →
        workerStep cfg notify j = { call := none, logged := some e }) := by
  constructor
  · rw [runWorker_append]; rfl
  · intro e he; simp [workerStep, he]

/-- C1 witness: a job with a missing `sender.login` raises `KeyError`, is
logged, and the jobs before and after it are still processed. -/
theorem c1_worker_fault_isolation_witness :
    runWorker exCfg (fun _ _ => true)
        ([{ event_type := "watch", payload := exPayload }]
          ++ { event_type := "watch", payload := badPayload }
            :: [{ event_type := "fork", payload := exPayload }])
      = runWorker exCfg (fun _ _ => true) [{ event_type := "watch", payload := exPayload }]
        ++ workerStep exCfg (fun _ _ => true) { event_type := "watch", payload := badPayload }
          :: runWorker exCfg (fun _ _ => true) [{ event_type := "fork", payload := exPayload }]
    ∧ workerStep exCfg (fun _ _ => true) { event_type := "watch", payload := badPayload }
        = { call := none, logged := some "KeyError: login" } := by
  have h := c1_worker_fault_isolation exCfg (fun _ _ => true)
    [{ event_type := "watch", payload := exPayload }]
    [{ event_type := "fork", payload := exPayload }]
    { event_type := "watch", payload := badPayload }
  exact ⟨h.1, h.2 "KeyError: login" rfl⟩

/-- C2: the queue is FIFO — draining after enqueueing any sequence yields
exactly that sequence, with no reordering, duplication or loss — and the
single worker's notifier invocations respect enqueue order: for jobs J1
enqueued before J2, J1's invocation (if any) appears before J2's in the
attempted-call trace. -/
theorem c2_fifo_ordering (cfg : AppConfig) (notify : String → String → Bool)
    (js pre mid post : List Job) (j1 j2 : Job) :
    Queue.drain (Queue.putAll Queue.empty js) = js
    ∧ notifierTrace cfg notify (pre ++ j1 :: (mid ++ j2 :: post))
        = notifierTrace cfg notify pre
          ++ ((workerStep cfg notify j1).call.toList
            ++ (notifierTrace cfg notify mid
              ++ ((workerStep cfg notify j2).call.toList
                ++ notifierTrace cfg notify post))) := by
  refine ⟨queue_fifo js, ?_⟩
  rw [notifierTrace_append, notifierTrace_cons, notifierTrace_append, notifierTrace_cons]

/-- C3: every job ever enqueued over any sequence of requests is for a
repository full name registered in `REPOS`, so the worker's registry lookup
for a dequeued job succeeds. -/
theorem c3_enqueued_repo_registered (cfg : AppConfig) (networks : List IPNetwork)
    (reqs : List Request) (j : Job)
    (hmem : j ∈ enqueuedJobs cfg networks reqs) :
    ∃ name rc, j.payload.repository_full_name = some name
      ∧ dictGet cfg.REPOS name = some rc := by
  induction reqs with
  | nil => simp [enqueuedJobs] at hmem
  | cons r rs ih =>
    rw [enqueuedJobs] at hmem
    rcases hh : (hook cfg networks r).enqueued with _ | j0
    · rw [hh] at hmem
      exact ih hmem
    · rw [hh] at hmem
      rcases List.mem_cons.mp hmem with heq | hmem2
      · subst heq
        exact hook_enqueued_registered cfg networks r j hh
      · exact ih hmem2

/-- C3 witness: the job enqueued by a concrete authorized watch request is
for the registered repository. -/
theorem c3_enqueued_repo_registered_witness :
    ∃ name rc,
      (Job.mk "watch" exPayload).payload.repository_full_name = some name
        ∧ dictGet exCfg.REPOS name = some rc :=
  c3_enqueued_repo_registered exCfg exNetworks [exWatchReq] (Job.mk "watch" exPayload)
    (by decide)

/-- C4: an allowlisted watch/fork request for a repository that is not a key
of `REPOS` gets HTTP 403 with body `status: repo not allowed, repo: name` and
enqueues nothing. -/
theorem c4_unregistered_repo_rejected (cfg : AppConfig) (networks : List IPNetwork)
    (req : Request) (name : String)
    (hauth : isAuthorized networks req.remote_addr = true)
    (hevt : req.event_type = some "watch" ∨ req.event_type = some "fork")
    (hname : req.payload.repository_full_name = some name)
    (hrepo : dictGet cfg.REPOS name = none) :
    hook cfg networks req
      = { response := .normal { body := [("status", "repo not allowed"), ("repo", name)],
                                code := 403 },
          enqueued := none } := by
  rcases hevt with h | h <;>
    simp +decide [hook, hauth, isFalsyHeader, h, hname, hrepo]

/-- C4 witness: a concrete allowlisted watch request for an unregistered
repository is rejected with the `repo not allowed` body. -/
theorem c4_unregistered_repo_rejected_witness :
    hook exCfg exNetworks
        { remote_addr := 167772161, event_type := some "watch",
          payload := { exPayload with repository_full_name := some "evil/repo" } }
      = { response := .normal { body := [("status", "repo not allowed"), ("repo", "evil/repo")],
                                code := 403 },
          enqueued := none } :=
  c4_unregistered_repo_rejected exCfg exNetworks _ "evil/repo"
    (by decide) (Or.inl rfl) rfl (by decide)

/-- C5 counterexample: an allowlisted request whose event-type header is
present but empty has an event type outside ping/watch/fork, yet the endpoint
answers 403 `not a hook` (the `if not event_type` truthiness check fires),
not the claimed 501 `unhandled event`. -/
theorem c5_counterexample :
    isAuthorized exNetworks 167772161 = true
    ∧ ("" ∉ (["ping", "watch", "fork"] : List String))
    ∧ hook exCfg exNetworks
          { remote_addr := 167772161, event_type := some "", payload := exPayload }
        = { response := .normal { body := [("status", "not a hook")], code := 403 },
            enqueued := none }
    ∧ (hook exCfg exNetworks
          { remote_addr := 167772161, event_type := some "", payload := exPayload }).response
        ≠ .normal { body := [("status", "unhandled event"), ("event", "")], code := 501 } := by
  refine ⟨by decide, by decide, by decide, by decide⟩

/-- C5 (amended): for every allowlisted request whose event type is present
and non-empty but not one of ping, watch, fork, the endpoint returns HTTP 501
with body `status: unhandled event, event: type` and enqueues nothing. -/
theorem c5_unhandled_event (cfg : AppConfig) (networks : List IPNetwork)
    (req : Request) (t : String)
    (hauth : isAuthorized networks req.remote_addr = true)
    (hevt : req.event_type = some t)
    (hne : t ≠ "") (hp : t ≠ "ping") (hw : t ≠ "watch") (hf : t ≠ "fork") :
    hook cfg networks req
      = { response := .normal { body := [("status", "unhandled event"), ("event", t)],
                                code := 501 },
          enqueued := none } := by
  simp [hook, hauth, isFalsyHeader, hevt, hne, hp, hw, hf]

/-- C5 witness: a concrete allowlisted `issues` event draws the 501
`unhandled event` response. -/
theorem c5_unhandled_event_witness :
    hook exCfg exNetworks
        { remote_addr := 167772161, event_type := some "issues", payload := exPayload }
      = { response := .normal { body := [("status", "unhandled event"), ("event", "issues")],
                                code := 501 },
          enqueued := none } :=
  c5_unhandled_event exCfg exNetworks _ "issues" (by decide) rfl
    (by decide) (by decide) (by decide) (by decide)

/-- C6: an allowlisted watch request for a registered repository gets HTTP
202 `handled` and enqueues exactly one job, of spec-kind star, whose metric
value is the payload's `repository.stargazers_count`. -/
theorem c6_watch_authorized (cfg : AppConfig) (networks : List IPNetwork)
    (req : Request) (name : String) (rc : RepoConfig)
    (hauth : isAuthorized networks req.remote_addr = true)
    (hevt : req.event_type = some "watch")
    (hname : req.payload.repository_full_name = some name)
    (hrepo : dictGet cfg.REPOS name = some rc) :
    hook cfg networks req
      = { response := .normal { body := [("status", "handled")], code := 202 },
          enqueued := some { event_type := "watch", payload := req.payload } }
    ∧ jobKind { event_type := "watch", payload := req.payload } = some JobKind.star
    ∧ jobMetricValue { event_type := "watch", payload := req.payload }
        = req.payload.repository_stargazers_count := by
  refine ⟨?_, rfl, rfl⟩
  simp +decide [hook, hauth, isFalsyHeader, hevt, hname, hrepo]

/-- C6 witness: the concrete authorized watch request is answered 202 and its
star job carries the payload's stargazer count. -/
theorem c6_watch_authorized_witness :
    hook exCfg exNetworks exWatchReq
      = { response := .normal { body := [("status", "handled")], code := 202 },
          enqueued := some { event_type := "watch", payload := exPayload } }
    ∧ jobKind { event_type := "watch", payload := exPayload } = some JobKind.star
    ∧ jobMetricValue { event_type := "watch", payload := exPayload }
        = exPayload.repository_stargazers_count :=
  c6_watch_authorized exCfg exNetworks exWatchReq "acme/widgets" exRepoCfg
    (by decide) rfl rfl (by decide)

/-- C7 counterexample: a request whose event-type header is missing but whose
source address is outside the allowlist is answered `you != GitHub`, not the
claimed `not a hook`: the origin check runs before the header check, so the
claim fails for requests that are not allowlisted. -/
theorem c7_counterexample :
    strangerReq.event_type = none
    ∧ hook exCfg exNetworks strangerReq
        = { response := .normal { body := [("status", "you != GitHub")], code := 403 },
            enqueued := none }
    ∧ (hook exCfg exNetworks strangerReq).response
        ≠ .normal { body := [("status", "not a hook")], code := 403 } := by
  refine ⟨rfl, by decide, by decide⟩

/-- C7 (amended): for every request from an allowlisted address whose
event-type header is missing, the endpoint returns HTTP 403 with body
`status: not a hook`. -/
theorem c7_missing_header (cfg : AppConfig) (networks : List IPNetwork) (req : Request)
    (hauth : isAuthorized networks req.remote_addr = true)
    (hevt : req.event_type = none) :
    hook cfg networks req
      = { response := .normal { body := [("status", "not a hook")], code := 403 },
          enqueued := none } := by
  simp [hook, hauth, isFalsyHeader, hevt]

/-- C7 witness: a concrete allowlisted request with no event-type header is
answered 403 `not a hook`. -/
theorem c7_missing_header_witness :
    hook exCfg exNetworks { remote_addr := 167772161, event_type := none, payload := exPayload }
      = { response := .normal { body := [("status", "not a hook")], code := 403 },
          enqueued := none } :=
  c7_missing_header exCfg exNetworks _ (by decide) rfl

/-- C8 counterexample: with the default fork template, the rendered message
separates the repository and the count with the Slack emoji `:goldfork:`, not
with the claimed character `⑂`: at a concrete fork job the produced message
differs from the claimed rendering. -/
theorem c8_counterexample :
    dictGet exCfg.REPOS "acme/widgets" = some exRepoCfg
    ∧ exRepoCfg.FORK_FORMAT = none
    ∧ handle exCfg { event_type := "fork", payload := exPayload }
        = .ok (some { channel := "#releases",
                      message := "<https://github.com/alice|alice> forked <https://github.com/acme/widgets|acme/widgets> :goldfork: 42" })
    ∧ "<https://github.com/alice|alice> forked <https://github.com/acme/widgets|acme/widgets> :goldfork: 42"
        ≠ "<https://github.com/alice|alice> forked <https://github.com/acme/widgets|acme/widgets> ⑂ 42" := by
  refine ⟨rfl, rfl, rfl, by decide⟩

/-- C8 (amended): a fork job for a repository without a custom fork template
is formatted with the default fork template, rendering
`actor forked repository :goldfork: count` with hyperlink markup on actor and
repository, actor from `sender.login`/`sender.html_url`, repository from
`repository.full_name`/`repository.html_url`, count from `repository.forks`. -/
theorem c8_default_fork_template (cfg : AppConfig) (j : Job) (rc : RepoConfig)
    (name repo_url login sender_url channel : String) (forks : Nat)
    (hdefault : cfg.FORK_FORMAT = defaultConfig.FORK_FORMAT)
    (hevt : j.event_type = "fork")
    (hname : j.payload.repository_full_name = some name)
    (hrurl : j.payload.repository_html_url = some repo_url)
    (hforks : j.payload.repository_forks = some forks)
    (hlogin : j.payload.sender_login = some login)
    (hsurl : j.payload.sender_html_url = some sender_url)
    (hrepo : dictGet cfg.REPOS name = some rc)
    (hnotmpl : rc.FORK_FORMAT = none)
    (hch : rc.channel = some channel) :
    handle cfg j
      = .ok (some { channel := channel,
                    message := "<" ++ sender_url ++ "|" ++ login ++ "> forked <" ++ repo_url
                      ++ "|" ++ name ++ "> :goldfork: " ++ toString forks }) := by
  have hrender : pyFormat defaultConfig.FORK_FORMAT (forkFields login sender_url name repo_url forks)
      = .ok ("<" ++ sender_url ++ "|" ++ login ++ "> forked <" ++ repo_url ++ "|" ++ name
              ++ "> :goldfork: " ++ toString forks) := rfl
  simp +decide [handle, hevt, hname, hrepo, hnotmpl, hch, hlogin, hsurl, hrurl, hforks,
    keyErr, hdefault, slack_notify_fork, hrender, bind, Except.bind, Option.getD,
    Functor.map, Except.map, pure, Except.pure]

/-- C8 witness: the concrete fork job renders the default template with
alice's links and fork count 42. -/
theorem c8_default_fork_template_witness :
    handle exCfg { event_type := "fork", payload := exPayload }
      = .ok (some { channel := "#releases",
                    message := "<" ++ "https://github.com/alice" ++ "|" ++ "alice" ++ "> forked <"
                      ++ "https://github.com/acme/widgets" ++ "|" ++ "acme/widgets"
                      ++ "> :goldfork: " ++ toString 42 }) :=
  c8_default_fork_template exCfg { event_type := "fork", payload := exPayload } exRepoCfg
    "acme/widgets" "https://github.com/acme/widgets" "alice" "https://github.com/alice"
    "#releases" 42 rfl rfl rfl rfl rfl rfl rfl (by decide) rfl rfl

/-- C9: the origin check authorizes an address iff it lies in at least one
allowlisted network range, including the first and last address of any range,
and every request whose address no range authorizes is answered HTTP 403
`you != GitHub` with no job enqueued, regardless of event type and payload. -/
theorem c9_origin_authorization (cfg : AppConfig) (networks : List IPNetwork)
    (req : Request) (a : Nat) (n : IPNetwork) :
    (isAuthorized networks a = true ↔ ∃ m ∈ networks, IPNetwork.hasAddr m a = true)
    ∧ IPNetwork.hasAddr n (IPNetwork.first n) = true
    ∧ IPNetwork.hasAddr n (IPNetwork.last n) = true
    ∧ (isAuthorized networks req.remote_addr = false →
        hook cfg networks req
          = { response := .normal { body := [("status", "you != GitHub")], code := 403 },
              enqueued := none }) := by
  refine ⟨?_, ?_, ?_, ?_⟩
  · simp [isAuthorized, List.any_eq_true]
  · simp [IPNetwork.hasAddr, IPNetwork.last]
  · simp [IPNetwork.hasAddr, IPNetwork.last]
  · intro hfail
    simp [hook, hfail]

/-- C9 witness: concrete authorization facts for the `10.0.0.0/8` allowlist,
boundary membership for a `/24` block, and the rejection of a request from
address 0. -/
theorem c9_origin_authorization_witness :
    (isAuthorized exNetworks 167772161 = true
      ↔ ∃ m ∈ exNetworks, IPNetwork.hasAddr m 167772161 = true)
    ∧ IPNetwork.hasAddr { addr := 167772161, masklen := 24 }
        (IPNetwork.first { addr := 167772161, masklen := 24 }) = true
    ∧ IPNetwork.hasAddr { addr := 167772161, masklen := 24 }
        (IPNetwork.last { addr := 167772161, masklen := 24 }) = true
    ∧ hook exCfg exNetworks strangerReq
        = { response := .normal { body := [("status", "you != GitHub")], code := 403 },
            enqueued := none } :=
  have h := c9_origin_authorization exCfg exNetworks strangerReq 167772161
    { addr := 167772161, masklen := 24 }
  ⟨h.1, h.2.1, h.2.2.1, h.2.2.2 (by decide)⟩

/-- C10: a dequeued job whose event-type tag is neither `watch` nor `fork`
makes no notifier call and raises nothing: `handle` returns without doing
anything and the worker iteration records neither a call nor an error. -/
theorem c10_other_events_noop (cfg : AppConfig) (notify : String → String → Bool) (j : Job)
    (hw : j.event_type ≠ "watch") (hf : j.event_type ≠ "fork") :
    handle cfg j = .ok none
    ∧ workerStep cfg notify j = { call := none, logged := none } := by
  have h : handle cfg j = .ok none := by
    simp [handle, hw, hf, pure, Except.pure]
  exact ⟨h, by simp [workerStep, h]⟩

/-- C10 witness: a `ping` job is silently ignored by the worker. -/
theorem c10_other_events_noop_witness :
    handle exCfg { event_type := "ping", payload := exPayload } = .ok none
    ∧ workerStep exCfg (fun _ _ => true) { event_type := "ping", payload := exPayload }
        = { call := none, logged := none } :=
  c10_other_events_noop exCfg (fun _ _ => true) { event_type := "ping", payload := exPayload }
    (by decide) (by decide)

end Skyhook
